import Mathlib

/-!
Shallow embedding of the ZenFlow service worker (`src/sw.js`).

Requests and responses are modelled as plain records; the Cache API is
modelled as an association list of named stores, each an association list
from a request key (its URL string) to a stored response, in creation
order.  `caches.match` without a cache receiver searches every store in
creation order, exactly as the platform does.  The network is modelled as
an explicit fetch outcome passed to each strategy (a fulfilled response or
a rejection), so a strategy whose result does not depend on that argument
performs no network round-trip.  Relative keys such as "./index.html"
stand for their resolution against the worker scope; install population
and the document fallback use the same literal, so they agree here as they
do after resolution in the platform.
-/

set_option autoImplicit false

/-- Prefix test on character lists (`String.startsWith`). -/
def startsWithL : List Char → List Char → Bool
  | _, [] => true
  | [], _ :: _ => false
  | a :: as, b :: bs => a == b && startsWithL as bs

/-- `strStarts s p` is JS `s.startsWith(p)`. -/
def strStarts (s p : String) : Bool :=
  startsWithL s.data p.data

/-- `strEnds s p` is JS `s.endsWith(p)`. -/
def strEnds (s p : String) : Bool :=
  startsWithL s.data.reverse p.data.reverse

/-- Contiguous-substring test on character lists. -/
def containsSubL (sub : List Char) : List Char → Bool
  | [] => startsWithL [] sub
  | a :: as => startsWithL (a :: as) sub || containsSubL sub as

/-- `strHas s sub` is JS `s.includes(sub)`. -/
def strHas (s sub : String) : Bool :=
  containsSubL sub.data s.data

/-- A response: status, status text, headers, body, and the fetch
`Response.type` string ("basic", "cors", "default", "error", ...). -/
structure Response where
  status : Nat
  statusText : String
  headers : List (String × String)
  body : String
  rtype : String
deriving DecidableEq, Repr

/-- A parsed URL: protocol ("https:"), hostname, pathname. -/
structure Url where
  protocol : String
  hostname : String
  pathname : String
deriving DecidableEq, Repr

/-- `url.origin`. -/
def Url.origin (u : Url) : String :=
  u.protocol ++ "//" ++ u.hostname

/-- The URL as a string; this is the RequestKey the Cache API matches on. -/
def Url.toKey (u : Url) : String :=
  u.protocol ++ "//" ++ u.hostname ++ u.pathname

/-- A request: method, URL and declared resource type (`destination`). -/
structure Request where
  method : String
  url : Url
  destination : String
deriving DecidableEq, Repr

/-- The normalized identity under which a request is cached. -/
def reqKey (req : Request) : String :=
  req.url.toKey

/-- One named store: RequestKey → StoredResponse, in insertion order. -/
abbrev Cache := List (String × Response)

/-- All named stores, in creation order. -/
abbrev CacheStorage := List (String × Cache)

/-- `cache.put(key, r)`: overwrite the entry for `key` or append it. -/
def Cache.put : Cache → String → Response → Cache
  | [], key, r => [(key, r)]
  | (k, v) :: rest, key, r =>
    if k == key then (key, r) :: rest else (k, v) :: Cache.put rest key r

/-- `cache.match(key)` restricted to one store. -/
def Cache.lookup : Cache → String → Option Response
  | [], _ => none
  | (k, v) :: rest, key => if k == key then some v else Cache.lookup rest key

/-- `caches.open(name).then(cache => cache.put(key, r))`: update the store
named `name`, creating it (at the end, as the newest) if absent. -/
def cachesPut : CacheStorage → String → String → Response → CacheStorage
  | [], name, key, r => [(name, [(key, r)])]
  | (n, c) :: rest, name, key, r =>
    if n == name then (n, Cache.put c key r) :: rest
    else (n, c) :: cachesPut rest name key r

/-- `caches.match(request)`: search every store in creation order and
return the first entry found for the key. -/
def cachesMatch : CacheStorage → String → Option Response
  | [], _ => none
  | (_, c) :: rest, key =>
    match Cache.lookup c key with
    | some r => some r
    | none => cachesMatch rest key

/-- Look a key up in the store with a given name only. -/
def lookupStore : CacheStorage → String → String → Option Response
  | [], _, _ => none
  | (n, c) :: rest, name, key =>
    if n == name then Cache.lookup c key else lookupStore rest name key

/-- The outcome of `fetch(request)`: a fulfilled response or a rejection. -/
inductive FetchOutcome where
  | success (r : Response)
  | failure (e : String)
deriving DecidableEq, Repr

/-- What a strategy promise settles to: a response, or a rethrown error. -/
inductive StrategyResult where
  | ok (r : Response)
  | err (e : String)
deriving DecidableEq, Repr

/-- `const CACHE_VERSION = 'zenflow-v1'`. -/
def CACHE_VERSION : String := "zenflow-v1"

/-- `` `${CACHE_VERSION}-static` ``. -/
def STATIC_ASSETS_CACHE : String := CACHE_VERSION ++ "-static"

/-- `` `${CACHE_VERSION}-api` ``. -/
def API_CACHE : String := CACHE_VERSION ++ "-api"

/-- `` `${CACHE_VERSION}-cdn` ``. -/
def CDN_CACHE : String := CACHE_VERSION ++ "-cdn"

/-- The offline HTML page synthesized by `networkFirstStrategy` when a
document request fails and no cached fallback exists (sw.js:167-170). -/
def offlineHtmlResponse : Response :=
  { status := 503
    statusText := "Service Unavailable"
    headers := [("Content-Type", "text/html; charset=utf-8")]
    body := "<h1>Offline</h1><p>ZenFlow is currently offline. Please check your connection.</p>"
    rtype := "default" }

/-- The terse 503 synthesized for non-document requests (sw.js:173). -/
def offlinePlainResponse : Response :=
  { status := 503
    statusText := "Service Unavailable"
    headers := []
    body := "Service unavailable - offline"
    rtype := "default" }

/-- The placeholder image synthesized by `cacheFirstStrategy` for image
requests on network failure (sw.js:200-203).  `new Response(body, init)`
defaults the status to 200. -/
def placeholderImage : Response :=
  { status := 200
    statusText := ""
    headers := [("Content-Type", "image/svg+xml")]
    body := "<svg xmlns=\"http://www.w3.org/2000/svg\" width=\"100\" height=\"100\"><rect fill=\"#e5e7eb\" width=\"100\" height=\"100\"/></svg>"
    rtype := "default" }

/-- `networkFirstStrategy(request, cacheName)` (sw.js:145-176), given the
outcome of its network fetch.  Returns the settled result together with
the cache storage after the (fire-and-forget) write. -/
def networkFirstStrategy (fo : FetchOutcome) (req : Request) (cacheName : String)
    (cs : CacheStorage) : StrategyResult × CacheStorage :=
  match fo with
  | .success response =>
    if response.status != 200 || response.rtype == "error" then
      (.ok response, cs)
    else
      (.ok response, cachesPut cs cacheName (reqKey req) response)
  | .failure _ =>
    match cachesMatch cs (reqKey req) with
    | some cachedResponse => (.ok cachedResponse, cs)
    | none =>
      if req.destination == "document" then
        match cachesMatch cs "./index.html" with
        | some indexResponse => (.ok indexResponse, cs)
        | none => (.ok offlineHtmlResponse, cs)
      else
        (.ok offlinePlainResponse, cs)

/-- `cacheFirstStrategy(request, cacheName)` (sw.js:181-208), given the
outcome of the network fetch it would perform on a miss. -/
def cacheFirstStrategy (fo : FetchOutcome) (req : Request) (cacheName : String)
    (cs : CacheStorage) : StrategyResult × CacheStorage :=
  match cachesMatch cs (reqKey req) with
  | some cachedResponse => (.ok cachedResponse, cs)
  | none =>
    match fo with
    | .success response =>
      if response.status != 200 then
        (.ok response, cs)
      else
        (.ok response, cachesPut cs cacheName (reqKey req) response)
    | .failure e =>
      if req.destination == "image" then
        (.ok placeholderImage, cs)
      else
        (.err e, cs)

/-- Which strategy the fetch router selects. -/
inductive StrategyChoice where
  | networkFirst
  | cacheFirst
deriving DecidableEq, Repr

/-- The fetch event listener's routing (sw.js:88-140): classify a request
into a (strategy, store name) pair, or `none` for pass-through (no
`respondWith`).  `locationOrigin` is `location.origin` of the worker. -/
def route (locationOrigin : String) (req : Request) : Option (StrategyChoice × String) :=
  if req.method != "GET" then none
  else if req.url.protocol != "http:" && req.url.protocol != "https:" then none
  else if req.url.hostname == "generativelanguage.googleapis.com"
      || strHas req.url.pathname "/api/"
      || strHas req.url.hostname "api." then
    some (.networkFirst, API_CACHE)
  else if req.url.hostname == "cdn.tailwindcss.com"
      || req.url.hostname == "fonts.googleapis.com"
      || req.url.hostname == "cdn.jsdelivr.net"
      || req.url.hostname == "fonts.gstatic.com" then
    some (.cacheFirst, CDN_CACHE)
  else if req.url.origin == locationOrigin then
    if req.destination == "image"
        || req.destination == "font"
        || req.destination == "style"
        || req.destination == "script"
        || strEnds req.url.pathname ".svg"
        || strEnds req.url.pathname ".png"
        || strEnds req.url.pathname ".jpg"
        || strEnds req.url.pathname ".jpeg"
        || strEnds req.url.pathname ".webp" then
      some (.cacheFirst, STATIC_ASSETS_CACHE)
    else if req.destination == "document"
        || strEnds req.url.pathname "manifest.json" then
      some (.networkFirst, STATIC_ASSETS_CACHE)
    else
      some (.networkFirst, STATIC_ASSETS_CACHE)
  else
    some (.networkFirst, STATIC_ASSETS_CACHE)

/-- The deletion test of the activate listener (sw.js:71-74): a cache name
is deleted when it does not start with `CACHE_VERSION` and either starts
with "zenflow-" or equals "default-cache". -/
def shouldDeleteCache (cacheName : String) : Bool :=
  !strStarts cacheName CACHE_VERSION
    && (strStarts cacheName "zenflow-" || cacheName == "default-cache")

/-- The activate listener's cache cleanup (sw.js:64-85): delete every
store whose name passes `shouldDeleteCache`, keep the rest. -/
def activateHandler (cs : CacheStorage) : CacheStorage :=
  cs.filter (fun p => !shouldDeleteCache p.fst)

/-- `STATIC_ASSETS` (sw.js:7-14). -/
def STATIC_ASSETS : List String :=
  ["./", "./index.html", "./manifest.json", "./icons/icon-192.svg",
   "./icons/icon-512.svg", "./icons/icon-maskable.svg"]

/-- `CDN_RESOURCES` (sw.js:17-21). -/
def CDN_RESOURCES : List String :=
  ["https://cdn.tailwindcss.com",
   "https://fonts.googleapis.com/css2?family=Marcellus&family=Quicksand:wght@300;400;500;600;700&display=swap",
   "https://cdn.jsdelivr.net/npm/@mediapipe/tasks-vision@0.10.3/+esm"]

/-- `response.ok`: status in the 200-299 range. -/
def respOk (r : Response) : Bool :=
  200 ≤ r.status && r.status ≤ 299

/-- The install listener (sw.js:24-61), with the network as two oracles
(`none` is a rejected fetch).  `cache.addAll` rejects unless every asset
fetch succeeds with an ok status, and that rejection is caught, so the
static store is populated only when all assets succeed; CDN resources are
cached independently when `response.ok` holds.  After both complete the
listener unconditionally calls `self.skipWaiting()` (sw.js:58); the
returned flag records that call. -/
def installHandler (staticFetch cdnFetch : String → Option Response)
    (cs : CacheStorage) : CacheStorage × Bool :=
  let staticAllOk := STATIC_ASSETS.all (fun a =>
    match staticFetch a with
    | some r => respOk r
    | none => false)
  let cs1 :=
    if staticAllOk then
      STATIC_ASSETS.foldl (fun acc a =>
        match staticFetch a with
        | some r => cachesPut acc STATIC_ASSETS_CACHE a r
        | none => acc) cs
    else cs
  let cs2 :=
    CDN_RESOURCES.foldl (fun acc u =>
      match cdnFetch u with
      | some r => if respOk r then cachesPut acc CDN_CACHE u r else acc
      | none => acc) cs1
  (cs2, true)

/-- Lifecycle phases of the worker. -/
inductive Phase where
  | installing
  | waiting
  | activating
  | active
deriving DecidableEq, Repr

/-- The platform rule for leaving the installed state: the worker stays in
Waiting unless `skipWaiting()` has been called, either during install or
on an external SKIP_WAITING message (sw.js:211-215). -/
def phaseAfterInstall (skipWaitingInvoked externalSkipCommand : Bool) : Phase :=
  if skipWaitingInvoked || externalSkipCommand then Phase.activating
  else Phase.waiting

/-- The message listener's SKIP_WAITING test (sw.js:212). -/
def messageTriggersSkipWaiting (msgType : String) : Bool :=
  msgType == "SKIP_WAITING"

/-! ### Concrete fixtures used by counterexamples and witnesses -/

/-- A cacheable 200 response. -/
def respA : Response :=
  { status := 200, statusText := "OK", headers := [], body := "alpha", rtype := "basic" }

/-- A second cacheable 200 response, distinct from `respA`. -/
def respB : Response :=
  { status := 200, statusText := "OK", headers := [], body := "beta", rtype := "basic" }

/-- A non-cacheable 404 response. -/
def resp404 : Response :=
  { status := 404, statusText := "Not Found", headers := [], body := "nope", rtype := "basic" }

/-- A cached copy of the application shell. -/
def respIdx : Response :=
  { status := 200, statusText := "OK", headers := [("Content-Type", "text/html")],
    body := "index html", rtype := "basic" }

/-- A same-origin GET script request. -/
def reqScript : Request :=
  { method := "GET"
    url := { protocol := "https:", hostname := "example.com", pathname := "/app.js" }
    destination := "script" }

/-- A GET image request. -/
def reqImage : Request :=
  { method := "GET"
    url := { protocol := "https:", hostname := "example.com", pathname := "/pic.png" }
    destination := "image" }

/-- A GET document request. -/
def reqDoc : Request :=
  { method := "GET"
    url := { protocol := "https:", hostname := "example.com", pathname := "/page" }
    destination := "document" }

/-- Storage holding the script under a store that is not the target one,
with the target store present but empty. -/
def twoStoreState : CacheStorage :=
  [("other-cache", [(reqKey reqScript, respA)]), ("zenflow-v1-static", [])]

/-- Storage whose only store is the target one, holding the script. -/
def oneStoreState : CacheStorage :=
  [("zenflow-v1-static", [(reqKey reqScript, respA)])]

/-- Storage where an earlier-created store shadows the target store's
entry for the same key. -/
def shadowedState : CacheStorage :=
  [("earlier-cache", [(reqKey reqScript, respA)]),
   ("zenflow-v1-static", [(reqKey reqScript, respB)])]

/-- Storage where an earlier-created store holds the document key while
the target store holds only the fallback shell. -/
def docShadowState : CacheStorage :=
  [("misc-cache", [(reqKey reqDoc, respA)]),
   ("zenflow-v1-static", [("./index.html", respIdx)])]

/-- A GET request that matches both the API rule (path) and the CDN
allow-list rule (hostname). -/
def reqApiCdn : Request :=
  { method := "GET"
    url := { protocol := "https:", hostname := "fonts.googleapis.com", pathname := "/api/icons" }
    destination := "style" }

/-! ### Helper lemmas -/

/-- Looking up the key just written into a store finds the new value. -/
lemma Cache.lookup_put_self (c : Cache) (key : String) (r : Response) :
    Cache.lookup (Cache.put c key r) key = some r := by
  induction c with
  | nil => simp [Cache.put, Cache.lookup]
  | cons e rest ih =>
    obtain ⟨k, v⟩ := e
    by_cases hk : k = key
    · subst hk
      simp [Cache.put, Cache.lookup]
    · simp [Cache.put, Cache.lookup, hk, ih]

/-- A store write is visible through a lookup restricted to that store. -/
lemma lookupStore_cachesPut_self (cs : CacheStorage) (name key : String) (r : Response) :
    lookupStore (cachesPut cs name key r) name key = some r := by
  induction cs with
  | nil => simp [cachesPut, lookupStore, Cache.lookup]
  | cons p rest ih =>
    obtain ⟨n, c⟩ := p
    by_cases hn : n = name
    · subst hn
      simp [cachesPut, lookupStore, Cache.lookup_put_self]
    · simp [cachesPut, lookupStore, hn, ih]

/-- If the named store holds the key and every other store misses it, the
global match returns the named store's entry. -/
lemma cachesMatch_of_exclusive (name key : String) (r : Response) :
    ∀ cs : CacheStorage, lookupStore cs name key = some r →
      (∀ n c, (n, c) ∈ cs → n ≠ name → Cache.lookup c key = none) →
      cachesMatch cs key = some r := by
  intro cs
  induction cs with
  | nil => intro h _; simp [lookupStore] at h
  | cons p rest ih =>
    obtain ⟨n, c⟩ := p
    intro h1 h2
    by_cases hn : n = name
    · subst hn
      simp only [lookupStore, beq_self_eq_true, if_true] at h1
      simp [cachesMatch, h1]
    · have hc : Cache.lookup c key = none :=
        h2 n c (List.mem_cons_self _ _) hn
      simp only [lookupStore, beq_iff_eq, if_neg hn] at h1
      have := ih h1 (fun n' c' hm hne => h2 n' c' (List.mem_cons_of_mem _ hm) hne)
      simp [cachesMatch, hc, this]

/-- A cache name survives the activate cleanup iff it either starts with
the current version string or lies outside the deletion namespace. -/
lemma shouldDeleteCache_eq_false_iff (name : String) :
    shouldDeleteCache name = false ↔
      (strStarts name CACHE_VERSION = true ∨
        (strStarts name "zenflow-" = false ∧ name ≠ "default-cache")) := by
  unfold shouldDeleteCache
  cases h1 : strStarts name CACHE_VERSION <;>
    cases h2 : strStarts name "zenflow-" <;>
      simp [h1, h2]

/-! ### C1 -/

/-- C1 counterexample: the claim that `pruneStale()` deletes a store iff
it carries the zenflow namespace prefix with a version segment different
from the current one is false at "default-cache" (outside the namespace,
yet deleted) and at "zenflow-v10-static" (in the namespace with version
segment "zenflow-v10" ≠ "zenflow-v1", yet kept, since the code compares
by string prefix). -/
theorem C1_counterexample :
    activateHandler
        [("default-cache", []), ("zenflow-v10-static", []), ("zenflow-v1-static", [])]
      = [("zenflow-v10-static", []), ("zenflow-v1-static", [])]
    ∧ strStarts "default-cache" "zenflow-" = false
    ∧ "zenflow-v10-static" = "zenflow-v10" ++ "-static"
    ∧ strStarts "zenflow-v10-static" "zenflow-" = true
    ∧ "zenflow-v10" ≠ CACHE_VERSION := by
  decide

/-- C1 (amended): at activation an existing store survives iff its name
starts with the current version string, or it lies outside the deletion
namespace (does not start with "zenflow-" and is not "default-cache");
every other store is deleted. -/
theorem C1_pruneStale (cs : CacheStorage) (name : String) (c : Cache)
    (hmem : (name, c) ∈ cs) :
    (name, c) ∈ activateHandler cs ↔
      (strStarts name CACHE_VERSION = true ∨
        (strStarts name "zenflow-" = false ∧ name ≠ "default-cache")) := by
  unfold activateHandler
  rw [List.mem_filter]
  simp only [hmem, true_and, Bool.not_eq_true']
  exact shouldDeleteCache_eq_false_iff name

/-- C1 witness: the current static store survives activation. -/
theorem C1_pruneStale_witness :
    ("zenflow-v1-static", ([] : Cache)) ∈
      activateHandler [("zenflow-v1-static", ([] : Cache))] :=
  (C1_pruneStale [("zenflow-v1-static", [])] "zenflow-v1-static" [] (by decide)).mpr
    (Or.inl (by decide))

/-! ### C2 -/

/-- C2 counterexample: the RequestKey is absent from the target store
"zenflow-v1-static" but present in "other-cache"; both strategies still
return that entry as a hit, so the lookup is not restricted to the named
store. -/
theorem C2_counterexample :
    lookupStore twoStoreState "zenflow-v1-static" (reqKey reqScript) = none
    ∧ (cacheFirstStrategy (.failure "net down") reqScript "zenflow-v1-static"
        twoStoreState).1 = .ok respA
    ∧ (networkFirstStrategy (.failure "net down") reqScript "zenflow-v1-static"
        twoStoreState).1 = .ok respA := by
  decide

/-- C2 (amended): both strategies perform their cache lookups through the
global match over every store in creation order — the storeName argument
is used only for writes — so whenever the global match finds an entry, in
whichever store, both the store-preferred initial lookup and the
origin-preferred network-failure fallback return it as a hit. -/
theorem C2_global_lookup (cs : CacheStorage) (req : Request) (name e : String)
    (fo : FetchOutcome) (r : Response)
    (h : cachesMatch cs (reqKey req) = some r) :
    cacheFirstStrategy fo req name cs = (.ok r, cs)
    ∧ networkFirstStrategy (.failure e) req name cs = (.ok r, cs) := by
  constructor
  · simp [cacheFirstStrategy, h]
  · simp [networkFirstStrategy, h]

/-- C2 witness: a hit in the only store is returned by both strategies. -/
theorem C2_global_lookup_witness :
    cacheFirstStrategy (.failure "x") reqScript "zenflow-v1-static" oneStoreState
      = (.ok respA, oneStoreState)
    ∧ networkFirstStrategy (.failure "x") reqScript "zenflow-v1-static" oneStoreState
      = (.ok respA, oneStoreState) :=
  C2_global_lookup oneStoreState reqScript "zenflow-v1-static" "x"
    (.failure "x") respA (by decide)

/-! ### C3 -/

/-- C3 counterexample: an image request that misses every store and whose
network fetch resolves with status 404 gets that 404 response back
unmodified — not the synthesized placeholder and not a propagated
failure — so bundling non-cacheable statuses with network failures is
false. -/
theorem C3_counterexample :
    reqImage.destination = "image"
    ∧ cachesMatch [] (reqKey reqImage) = none
    ∧ resp404.status = 404
    ∧ cacheFirstStrategy (.success resp404) reqImage "zenflow-v1-static" []
      = (.ok resp404, [])
    ∧ resp404 ≠ placeholderImage := by
  decide

/-- C3 (amended): under store-preferred, on a store miss a fetch that
resolves with a non-cacheable status is returned to the caller unmodified
and not stored (for image requests too); only when the fetch itself fails
does the strategy synthesize the placeholder for image requests and
propagate the error otherwise. -/
theorem C3_miss_network (cs : CacheStorage) (req : Request) (name e : String)
    (resp : Response)
    (hmiss : cachesMatch cs (reqKey req) = none) :
    (resp.status ≠ 200 →
      cacheFirstStrategy (.success resp) req name cs = (.ok resp, cs))
    ∧ (req.destination = "image" →
      cacheFirstStrategy (.failure e) req name cs = (.ok placeholderImage, cs))
    ∧ (req.destination ≠ "image" →
      cacheFirstStrategy (.failure e) req name cs = (.err e, cs)) := by
  refine ⟨fun h => ?_, fun h => ?_, fun h => ?_⟩ <;>
    simp [cacheFirstStrategy, hmiss, h]

/-- C3 witness: an image request missing an empty storage whose fetch
fails yields the placeholder. -/
theorem C3_miss_network_witness :
    cacheFirstStrategy (.failure "boom") reqImage "zenflow-v1-static" []
      = (.ok placeholderImage, []) :=
  (C3_miss_network [] reqImage "zenflow-v1-static" "boom" resp404
    (by decide)).2.1 (by decide)

/-! ### C4 -/

/-- C4 counterexample: the RequestKey is present in the target store
"zenflow-v1-static" (holding `respB`), but an earlier-created store holds
a different entry for the same key, and the strategy returns that one —
not the target store's stored response. -/
theorem C4_counterexample :
    lookupStore shadowedState "zenflow-v1-static" (reqKey reqScript) = some respB
    ∧ (cacheFirstStrategy (.failure "net") reqScript "zenflow-v1-static"
        shadowedState).1 = .ok respA
    ∧ respA ≠ respB := by
  decide

/-- C4 (amended): on a hit, store-preferred performs no network fetch (the
result is the same for every fetch outcome) and leaves the storage
unchanged; it returns the first globally matching entry, which is exactly
the target store's stored response whenever no other store holds the
key. -/
theorem C4_hit_exclusive (cs : CacheStorage) (req : Request) (name : String)
    (fo : FetchOutcome) (r : Response)
    (h1 : lookupStore cs name (reqKey req) = some r)
    (h2 : ∀ n c, (n, c) ∈ cs → n ≠ name → Cache.lookup c (reqKey req) = none) :
    cacheFirstStrategy fo req name cs = (.ok r, cs) := by
  have hm := cachesMatch_of_exclusive name (reqKey req) r cs h1 h2
  simp [cacheFirstStrategy, hm]

/-- C4 witness: with the key only in the target store, the stored response
comes back untouched even though the (unused) network would return a
different response. -/
theorem C4_hit_exclusive_witness :
    cacheFirstStrategy (.success respB) reqScript "zenflow-v1-static" oneStoreState
      = (.ok respA, oneStoreState) :=
  C4_hit_exclusive oneStoreState reqScript "zenflow-v1-static" (.success respB) respA
    (by decide)
    (by
      intro n c hm hne
      simp only [oneStoreState, List.mem_singleton, Prod.mk.injEq] at hm
      exact absurd hm.1 hne)

/-! ### C5 -/

/-- C5: when the origin-preferred fetch resolves with status 200 and a
non-error type, the original response is returned and the named store then
holds it under the RequestKey (same body); any other status, or an error
type, is passed through with the storage unmodified. -/
theorem C5_networkFirst_success (cs : CacheStorage) (req : Request) (name : String)
    (resp : Response) :
    (resp.status = 200 ∧ resp.rtype ≠ "error" →
      networkFirstStrategy (.success resp) req name cs
        = (.ok resp, cachesPut cs name (reqKey req) resp)
      ∧ lookupStore (cachesPut cs name (reqKey req) resp) name (reqKey req)
        = some resp)
    ∧ (resp.status ≠ 200 ∨ resp.rtype = "error" →
      networkFirstStrategy (.success resp) req name cs = (.ok resp, cs)) := by
  constructor
  · rintro ⟨h1, h2⟩
    exact ⟨by simp [networkFirstStrategy, h1, h2],
      lookupStore_cachesPut_self cs name (reqKey req) resp⟩
  · rintro (h | h) <;> simp [networkFirstStrategy, h]

/-- C5 witness: a 200 fetch for the script is stored in the api store and
retrievable there. -/
theorem C5_networkFirst_success_witness :
    networkFirstStrategy (.success respA) reqScript "zenflow-v1-api" []
      = (.ok respA, cachesPut [] "zenflow-v1-api" (reqKey reqScript) respA)
    ∧ lookupStore (cachesPut [] "zenflow-v1-api" (reqKey reqScript) respA)
        "zenflow-v1-api" (reqKey reqScript) = some respA :=
  (C5_networkFirst_success [] reqScript "zenflow-v1-api" respA).1
    ⟨by decide, by decide⟩

/-! ### C6 -/

/-- C6: any GET http(s) request satisfying one of the API conditions
(API host, path containing "/api/", or hostname containing "api.") is
routed to (origin-preferred, api store), with no assumption about the
later CDN or static rules — API detection is evaluated first. -/
theorem C6_api_priority (locationOrigin : String) (req : Request)
    (hm : req.method = "GET")
    (hp : req.url.protocol = "http:" ∨ req.url.protocol = "https:")
    (hapi : req.url.hostname = "generativelanguage.googleapis.com"
      ∨ strHas req.url.pathname "/api/" = true
      ∨ strHas req.url.hostname "api." = true) :
    route locationOrigin req = some (StrategyChoice.networkFirst, API_CACHE) := by
  have h1 : (req.method != "GET") = false := by simp [hm]
  have h2 : (req.url.protocol != "http:" && req.url.protocol != "https:") = false := by
    rcases hp with h | h <;> simp [h]
  have h3 : (req.url.hostname == "generativelanguage.googleapis.com"
      || strHas req.url.pathname "/api/" || strHas req.url.hostname "api.") = true := by
    rcases hapi with h | h | h <;> simp [h]
  simp [route, h1, h2, h3]

/-- C6 witness: a request whose hostname is on the CDN allow-list but
whose path contains "/api/" is still routed to the api store. -/
theorem C6_api_priority_witness :
    route "https://example.com" reqApiCdn
      = some (StrategyChoice.networkFirst, API_CACHE) :=
  C6_api_priority "https://example.com" reqApiCdn (by decide)
    (Or.inr (by decide)) (Or.inr (Or.inl (by decide)))

/-! ### C7 -/

/-- C7 counterexample: a document request whose network fetch fails and
whose RequestKey misses the target store, while a stored fallback
"./index.html" exists there — yet the strategy returns the entry an
earlier-created store holds for the key, not the fallback document. -/
theorem C7_counterexample :
    reqDoc.destination = "document"
    ∧ lookupStore docShadowState "zenflow-v1-static" (reqKey reqDoc) = none
    ∧ lookupStore docShadowState "zenflow-v1-static" "./index.html" = some respIdx
    ∧ (networkFirstStrategy (.failure "offline") reqDoc "zenflow-v1-static"
        docShadowState).1 = .ok respA
    ∧ respA ≠ respIdx := by
  decide

/-- C7 (amended): for a document request whose network fetch fails and
whose RequestKey misses every store (the lookup is global): if any store
holds the fallback "./index.html" that entry is returned; otherwise the
strategy returns the synthesized offline HTML response, which has status
503, an HTML content type, and offline messaging in its body. -/
theorem C7_document_offline (cs : CacheStorage) (req : Request) (name e : String)
    (hmiss : cachesMatch cs (reqKey req) = none)
    (hdoc : req.destination = "document") :
    (∀ idx, cachesMatch cs "./index.html" = some idx →
      networkFirstStrategy (.failure e) req name cs = (.ok idx, cs))
    ∧ (cachesMatch cs "./index.html" = none →
      networkFirstStrategy (.failure e) req name cs = (.ok offlineHtmlResponse, cs)
      ∧ offlineHtmlResponse.status = 503
      ∧ offlineHtmlResponse.headers = [("Content-Type", "text/html; charset=utf-8")]
      ∧ strHas offlineHtmlResponse.body "offline" = true) := by
  constructor
  · intro idx hidx
    simp [networkFirstStrategy, hmiss, hdoc, hidx]
  · intro hnone
    refine ⟨by simp [networkFirstStrategy, hmiss, hdoc, hnone], by decide, by decide, by decide⟩

/-- C7 witness: with empty storage, a failing document request yields the
503 offline HTML page. -/
theorem C7_document_offline_witness :
    networkFirstStrategy (.failure "offline") reqDoc "zenflow-v1-static" []
      = (.ok offlineHtmlResponse, [])
    ∧ offlineHtmlResponse.status = 503
    ∧ offlineHtmlResponse.headers = [("Content-Type", "text/html; charset=utf-8")]
    ∧ strHas offlineHtmlResponse.body "offline" = true :=
  (C7_document_offline [] reqDoc "zenflow-v1-static" "offline"
    (by decide) (by decide)).2 (by decide)

/-! ### C8 -/

/-- C8 counterexample: with no external skip command at all, installation
completes with `self.skipWaiting()` already invoked by the install
listener itself (sw.js:58), so the worker force-transitions to Activating
instead of settling in Waiting. -/
theorem C8_counterexample :
    (installHandler (fun _ => none) (fun _ => none) []).2 = true
    ∧ phaseAfterInstall (installHandler (fun _ => none) (fun _ => none) []).2 false
      = Phase.activating := by
  decide

/-- C8 (amended): after installation completes the controller itself
invokes the skip-waiting signal unconditionally, so — whatever the
network oracles, the prior storage, and whether an external SKIP_WAITING
command arrived — it force-transitions to Activating on its own and never
rests in Waiting; the external command is an additional trigger, not the
only one. -/
theorem C8_skipWaiting_self (staticFetch cdnFetch : String → Option Response)
    (cs : CacheStorage) (externalSkipCommand : Bool) :
    (installHandler staticFetch cdnFetch cs).2 = true
    ∧ phaseAfterInstall (installHandler staticFetch cdnFetch cs).2 externalSkipCommand
      = Phase.activating := by
  refine ⟨rfl, ?_⟩
  simp [installHandler, phaseAfterInstall]

/-! ### C9 -/

/-- C9: the placeholder returned for an image request on store miss and
network failure has status 200 and a Content-Type header of
image/svg+xml. -/
theorem C9_placeholder_shape (cs : CacheStorage) (req : Request) (name e : String)
    (hmiss : cachesMatch cs (reqKey req) = none)
    (himg : req.destination = "image") :
    (cacheFirstStrategy (.failure e) req name cs).1 = .ok placeholderImage
    ∧ placeholderImage.status = 200
    ∧ placeholderImage.headers = [("Content-Type", "image/svg+xml")] := by
  refine ⟨?_, rfl, rfl⟩
  simp [cacheFirstStrategy, hmiss, himg]

/-- C9 witness: concrete image request against empty storage. -/
theorem C9_placeholder_shape_witness :
    (cacheFirstStrategy (.failure "x") reqImage "zenflow-v1-cdn" []).1
      = .ok placeholderImage
    ∧ placeholderImage.status = 200
    ∧ placeholderImage.headers = [("Content-Type", "image/svg+xml")] :=
  C9_placeholder_shape [] reqImage "zenflow-v1-cdn" "x" (by decide) (by decide)

/-! ### C10 -/

/-- C10: when the store-preferred lookup hits, handling the request leaves
the entire cache storage — every store and every entry — exactly as it
was, for every possible network outcome. -/
theorem C10_hit_no_mutation (cs : CacheStorage) (req : Request) (name : String)
    (fo : FetchOutcome) (r : Response)
    (h : cachesMatch cs (reqKey req) = some r) :
    (cacheFirstStrategy fo req name cs).2 = cs := by
  simp [cacheFirstStrategy, h]

/-- C10 witness: a hit in a two-store state mutates nothing even though
the (unused) network would return a storable response. -/
theorem C10_hit_no_mutation_witness :
    (cacheFirstStrategy (.success respB) reqScript "zenflow-v1-static"
      twoStoreState).2 = twoStoreState :=
  C10_hit_no_mutation twoStoreState reqScript "zenflow-v1-static"
    (.success respB) respA (by decide)
